import Mathlib

/-!
Shallow embedding of `s01_recon2D.py` (TVR-DART 2D reconstruction demo).

The script is a straight-line procedure: load a sinogram from a fixed path
under the user's home directory, subtract a fixed intensity offset, build
projection/volume geometry, run SIRT, normalize by the maximum of the SIRT
reconstruction, jointly estimate parameters, run the final TVR-DART
reconstruction, rescale, plot, and save the segmented result.

Machine floats are modelled by exact rationals; angles are modelled by real
numbers (rational linspace coefficients times pi/180).  The external
libraries (astra, SIRT, TVRDART, pylab) are opaque collaborators: they are
modelled by a record of possibly failing functions, and the script is a
function of that record, of the command-line arguments and of the
environment.  The run returns the trace of completed stages together with
either the final program state or the first uncaught error.
-/

namespace Recon2D

/-- A 2D array of exact-rational values (a numpy 2D array, row-major). -/
abbrev Image := List (List ℚ)

/-- numpy.linspace with endpoint=True, in exact arithmetic:
`linspace a b n = [a + (b-a)*i/(n-1) for i in range n]` for `n ≥ 2`,
`[a]` for `n = 1` and `[]` for `n = 0`. -/
def linspace (a b : ℚ) (n : ℕ) : List ℚ :=
  if n = 0 then []
  else if n = 1 then [a]
  else (List.range n).map (fun (i : ℕ) => a + (b - a) * (i : ℚ) / ((n : ℚ) - 1))

/-- The fixed intensity offset of line 60: `offset = -0.00893`. -/
def offset : ℚ := -(893 / 100000)

/-- Line 61, `data -= offset`: subtract the offset from every element. -/
def correctOffset (d : Image) : Image :=
  d.map (fun row => row.map (fun x => x - offset))

/-- Elementwise multiplication of an array by a scalar (numpy `d * c`). -/
def scaleImage (c : ℚ) (d : Image) : Image :=
  d.map (fun row => row.map (fun x => x * c))

/-- Elementwise division of an array by a scalar (numpy `d / c`). -/
def divImage (d : Image) (c : ℚ) : Image :=
  d.map (fun row => row.map (fun x => x / c))

/-- Maximum of a list of rationals (`0` on the empty list, on which
numpy's `np.max` raises instead). -/
def maxList (l : List ℚ) : ℚ :=
  match l with
  | [] => 0
  | x :: xs => xs.foldl max x

/-- Maximum (`np.max`) over all elements of a 2D array. -/
def maxImage (d : Image) : ℚ := maxList d.flatten

/-- The value `Nan`, the first dimension of the loaded sinogram (line 55). -/
def NanOf (d : Image) : ℕ := d.length

/-- The value `Ndetx`, the second dimension of the loaded sinogram (line 55). -/
def NdetxOf (d : Image) : ℕ := (d.headD []).length

/-- The rational coefficients of the projection angles (line 56):
`np.linspace(-50, 50, Nan, True)`; the angle in radians is the
coefficient times `pi/180`. -/
def anglesCoeffOf (d : Image) : List ℚ := linspace (-50) 50 (NanOf d)

/-- The projection angles in radians (line 56):
`np.linspace(-50, 50, Nan, True) * (np.pi/180)`. -/
noncomputable def anglesReal (n : ℕ) : List ℝ :=
  (linspace (-50) 50 n).map (fun (c : ℚ) => (c : ℝ) * (Real.pi / 180))

/-- The argument tuple of `astra.create_proj_geom("parallel", 1.0, Ndetx, angles)`
(line 68); the value astra returns is opaque. -/
structure ProjGeom where
  geomType : String
  detWidth : ℚ
  detCount : ℕ
  anglesCoeff : List ℚ
deriving DecidableEq

/-- The argument tuple of `astra.create_vol_geom(Nz, Nx)` (line 69);
the value astra returns is opaque. -/
structure VolGeom where
  nz : ℕ
  nx : ℕ
deriving DecidableEq

/-- The process environment: the resolved home directory (`Path.home()`)
together with the remaining environment variables. -/
structure Env where
  home : String
  vars : List (String × String)
deriving DecidableEq

/-- The input path of lines 52-54:
`Path.home() / "Documents" / "GitHub" / "ContributedTools" / "nanotube2d.npy"`. -/
def inputPath (e : Env) : String :=
  e.home ++ "/Documents/GitHub/ContributedTools/nanotube2d.npy"

/-- The output path of line 122: `"TVRDART2Dreconstruction.npy"`. -/
def outputPath : String := "TVRDART2Dreconstruction.npy"

/-- Constant `Ngv = 2` (line 74): number of material compositions. -/
def Ngv : ℕ := 2

/-- Constant `K = 4*np.ones(Ngv-1)` (line 75): initial sharpness values. -/
def Kinit : List ℚ := List.replicate (Ngv - 1) 4

/-- Constant `lamb = 10` (line 76): weight of the TV term. -/
def lamb : ℚ := 10

/-- Constant `Niter = 50` (line 77): iterations of the final reconstruction. -/
def Niter : ℕ := 50

/-- The iteration count `50` passed to `SIRT.recon` (line 83). -/
def sirtIterations : ℕ := 50

/-- The scalar `sf = np.max(recsirt)` (line 84). -/
def sfOf (rs : Image) : ℚ := maxImage rs

/-- The normalized reconstruction `recsirt = recsirt/sf` (line 87). -/
def recsirtNOf (rs : Image) : Image := divImage rs (sfOf rs)

/-- The vector `p = data.reshape(Nan*Ndetx)` of the normalized data (lines 85-86):
row-major flattening of `(data - offset) / sf`. -/
def pOf (d rs : Image) : List ℚ := (divImage (correctOffset d) (sfOf rs)).flatten

/-- Observable events of a run: completed stages, projector lifecycle
events, and file writes with their payloads. -/
inductive Event where
  | load
  | offsetCorr
  | geometry
  | projectorCreate (id : ℕ)
  | projectorRelease (id : ℕ)
  | sirt
  | paramEst
  | finalRecon
  | rescale
  | visualize
  | save (path : String) (img : Image)
deriving DecidableEq

/-- The external libraries the script calls into (astra, SIRT, TVRDART,
pylab), modelled as opaque, possibly failing functions.  `gv2param` and
`param2gv` are pure conversions. -/
structure Externals where
  loadData : String → Except String Image
  createProjGeom : String → ℚ → ℕ → List ℚ → Except String ProjGeom
  createVolGeom : ℕ → ℕ → Except String VolGeom
  createProjector : String → ProjGeom → VolGeom → Except String ℕ
  sirtRecon : Image → ℕ → ProjGeom → VolGeom → String → Except String Image
  gv2param : List ℚ → List ℚ → List ℚ
  param2gv : List ℚ → List ℚ × List ℚ
  joint : ℕ → List ℚ → Image → List ℚ → ℚ → Except String (Image × List ℚ)
  reconTV : ℕ → List ℚ → Image → List ℚ → ℚ → ℕ → Except String (Image × Image)
  showPlots : Except String Unit
  saveFile : String → Image → Except String Unit

/-- The vector `param0 = TVRDART.gv2param(np.linspace(0,1,Ngv,True), K)` (lines 91-92). -/
def param0Of (ext : Externals) : List ℚ := ext.gv2param (linspace 0 1 Ngv) Kinit

/-- The final values of all program variables of a successful run. -/
structure RunState where
  dataLoaded : Image
  Nan : ℕ
  Ndetx : ℕ
  anglesCoeff : List ℚ
  dataCorrected : Image
  proj_geom : ProjGeom
  volGeomArgs : ℕ × ℕ
  vol_geom : VolGeom
  proj_id : ℕ
  recsirtRaw : Image
  sf : ℚ
  dataNormalized : Image
  p : List ℚ
  recsirt : Image
  gv0 : List ℚ
  param0 : List ℚ
  SegrecJoint : Image
  param_esti : List ℚ
  gvEsti : List ℚ
  Kesti : List ℚ
  SegrecRaw : Image
  recCont : Image
  gvFinal : List ℚ
  recsirtFinal : Image
  Segrec : Image
deriving DecidableEq

/-- The state of a successful run, assembled from the loaded data `d` and the
values `pg, vg, pid, rs, seg1, pe, seg2, recC` returned by the external
calls, exactly as the script computes them. -/
def mkRunState (ext : Externals) (d : Image) (pg : ProjGeom) (vg : VolGeom)
    (pid : ℕ) (rs seg1 : Image) (pe : List ℚ) (seg2 recC : Image) : RunState :=
  { dataLoaded := d
    Nan := NanOf d
    Ndetx := NdetxOf d
    anglesCoeff := anglesCoeffOf d
    dataCorrected := correctOffset d
    proj_geom := pg
    volGeomArgs := (NdetxOf d, NdetxOf d)
    vol_geom := vg
    proj_id := pid
    recsirtRaw := rs
    sf := sfOf rs
    dataNormalized := divImage (correctOffset d) (sfOf rs)
    p := pOf d rs
    recsirt := recsirtNOf rs
    gv0 := linspace 0 1 Ngv
    param0 := param0Of ext
    SegrecJoint := seg1
    param_esti := pe
    gvEsti := (ext.param2gv pe).1
    Kesti := (ext.param2gv pe).2
    SegrecRaw := seg2
    recCont := recC
    gvFinal := (ext.param2gv pe).1.map (fun g => g * sfOf rs)
    recsirtFinal := scaleImage (sfOf rs) (recsirtNOf rs)
    Segrec := scaleImage (sfOf rs) seg2 }

/-- The event trace of a run that completes every stage. -/
def fullTrace (pid : ℕ) (seg : Image) : List Event :=
  [.load, .offsetCorr, .geometry, .projectorCreate pid, .sirt, .paramEst,
   .finalRecon, .rescale, .visualize, .save outputPath seg]

/-- The whole script, lines 46-122: a function of the external libraries,
the command-line arguments and the environment (the source consults neither
`argv` nor any environment variable except through `Path.home()`).  Returns
the trace of completed stages paired with the final state, or with the
first uncaught library error. -/
def runScript (ext : Externals) (argv : List String) (env : Env) :
    List Event × Except String RunState :=
  match ext.loadData (inputPath env) with
  | .error e => ([], .error e)
  | .ok d =>
    match ext.createProjGeom "parallel" 1 (NdetxOf d) (anglesCoeffOf d) with
    | .error e => ([.load, .offsetCorr], .error e)
    | .ok pg =>
      match ext.createVolGeom (NdetxOf d) (NdetxOf d) with
      | .error e => ([.load, .offsetCorr], .error e)
      | .ok vg =>
        match ext.createProjector "cuda" pg vg with
        | .error e => ([.load, .offsetCorr, .geometry], .error e)
        | .ok pid =>
          match ext.sirtRecon (correctOffset d) sirtIterations pg vg "cuda" with
          | .error e =>
            ([.load, .offsetCorr, .geometry, .projectorCreate pid], .error e)
          | .ok rs =>
            match ext.joint pid (pOf d rs) (recsirtNOf rs) (param0Of ext) lamb with
            | .error e =>
              ([.load, .offsetCorr, .geometry, .projectorCreate pid, .sirt],
               .error e)
            | .ok (seg1, pe) =>
              match ext.reconTV pid (pOf d rs) (recsirtNOf rs) pe lamb Niter with
              | .error e =>
                ([.load, .offsetCorr, .geometry, .projectorCreate pid, .sirt,
                  .paramEst], .error e)
              | .ok (seg2, recC) =>
                match ext.showPlots with
                | .error e =>
                  ([.load, .offsetCorr, .geometry, .projectorCreate pid, .sirt,
                    .paramEst, .finalRecon, .rescale], .error e)
                | .ok _ =>
                  match ext.saveFile outputPath (scaleImage (sfOf rs) seg2) with
                  | .error e =>
                    ([.load, .offsetCorr, .geometry, .projectorCreate pid,
                      .sirt, .paramEst, .finalRecon, .rescale, .visualize],
                     .error e)
                  | .ok _ =>
                    (fullTrace pid (scaleImage (sfOf rs) seg2),
                     .ok (mkRunState ext d pg vg pid rs seg1 pe seg2 recC))

/-- The file-write events of a trace: path and payload of each `np.save`. -/
def savedImages (tr : List Event) : List (String × Image) :=
  tr.filterMap (fun e =>
    match e with
    | .save path img => some (path, img)
    | _ => none)

/-- The nine stages of the spec's pipeline description. -/
inductive Stage where
  | load | offsetCorr | geometry | sirt | paramEst
  | finalRecon | rescale | visualize | save
deriving DecidableEq

/-- The stage an event belongs to; projector lifecycle events are part of
the geometry block and carry no stage of their own. -/
def stageOf : Event → Option Stage
  | .load => some .load
  | .offsetCorr => some .offsetCorr
  | .geometry => some .geometry
  | .projectorCreate _ => none
  | .projectorRelease _ => none
  | .sirt => some .sirt
  | .paramEst => some .paramEst
  | .finalRecon => some .finalRecon
  | .rescale => some .rescale
  | .visualize => some .visualize
  | .save _ _ => some .save

/-- The sequence of completed stages of a trace. -/
def stageEvents (tr : List Event) : List Stage := tr.filterMap stageOf

/-- Whether an event creates the GPU projector handle. -/
def isProjectorCreate : Event → Bool
  | .projectorCreate _ => true
  | _ => false

/-- Whether an event releases the GPU projector handle. -/
def isProjectorRelease : Event → Bool
  | .projectorRelease _ => true
  | _ => false

/-- Number of projector creations in a trace. -/
def countCreates (tr : List Event) : ℕ := tr.countP isProjectorCreate

/-- Number of projector releases in a trace. -/
def countReleases (tr : List Event) : ℕ := tr.countP isProjectorRelease

/-- A 2D array has `r` rows, each of length `c`. -/
def hasShape (d : Image) (r c : ℕ) : Prop :=
  d.length = r ∧ ∀ row ∈ d, row.length = c

instance (d : Image) (r c : ℕ) : Decidable (hasShape d r c) := by
  unfold hasShape; infer_instance

/-! ### Concrete sample runs, used by the witnesses and counterexamples -/

/-- A sample loaded sinogram: 3 angles, 2 detector elements. -/
def sampleData : Image := [[1, 2], [3, 4], [5, 6]]

/-- A sample SIRT output whose maximum is 4. -/
def sampleSirt : Image := [[1, 2], [2, 4]]

/-- A sample output of the joint estimation. -/
def sampleSeg1 : Image := [[0, 1], [1, 0]]

/-- A sample segmented output of the final reconstruction. -/
def sampleSeg2 : Image := [[0, 1], [1, 1]]

/-- A sample continuous output of the final reconstruction. -/
def sampleRecC : Image := [[0, 1], [1, 2]]

/-- A sample environment. -/
def env0 : Env := { home := "/home/user", vars := [] }

/-- External libraries that always succeed, returning the sample values;
geometry constructors echo their arguments. -/
def happyExt : Externals :=
  { loadData := fun _ => .ok sampleData
    createProjGeom := fun t w n a =>
      .ok { geomType := t, detWidth := w, detCount := n, anglesCoeff := a }
    createVolGeom := fun nz nx => .ok { nz := nz, nx := nx }
    createProjector := fun _ _ _ => .ok 7
    sirtRecon := fun _ _ _ _ _ => .ok sampleSirt
    gv2param := fun gv k => gv ++ k
    param2gv := fun q => (q.take 2, q.drop 2)
    joint := fun _ _ _ p0 _ => .ok (sampleSeg1, p0)
    reconTV := fun _ _ _ _ _ _ => .ok (sampleSeg2, sampleRecC)
    showPlots := .ok ()
    saveFile := fun _ _ => .ok () }

/-- The final state of the successful sample run. -/
def happySt : RunState :=
  mkRunState happyExt sampleData
    { geomType := "parallel", detWidth := 1, detCount := NdetxOf sampleData,
      anglesCoeff := anglesCoeffOf sampleData }
    { nz := NdetxOf sampleData, nx := NdetxOf sampleData }
    7 sampleSirt sampleSeg1 (param0Of happyExt) sampleSeg2 sampleRecC

/-! ### Inversion of a successful run -/

/-- A successful run determines every intermediate value: each external call
succeeded with the recorded arguments, the final state is `mkRunState` of the
returned values, and the trace is the full trace. -/
theorem runScript_ok_elim (ext : Externals) (argv : List String) (env : Env)
    (st : RunState) (h : (runScript ext argv env).2 = Except.ok st) :
    ∃ d pg vg pid rs seg1 pe seg2 recC,
      ext.loadData (inputPath env) = .ok d ∧
      ext.createProjGeom "parallel" 1 (NdetxOf d) (anglesCoeffOf d) = .ok pg ∧
      ext.createVolGeom (NdetxOf d) (NdetxOf d) = .ok vg ∧
      ext.createProjector "cuda" pg vg = .ok pid ∧
      ext.sirtRecon (correctOffset d) sirtIterations pg vg "cuda" = .ok rs ∧
      ext.joint pid (pOf d rs) (recsirtNOf rs) (param0Of ext) lamb = .ok (seg1, pe) ∧
      ext.reconTV pid (pOf d rs) (recsirtNOf rs) pe lamb Niter = .ok (seg2, recC) ∧
      ext.showPlots = .ok () ∧
      ext.saveFile outputPath (scaleImage (sfOf rs) seg2) = .ok () ∧
      st = mkRunState ext d pg vg pid rs seg1 pe seg2 recC ∧
      (runScript ext argv env).1 = fullTrace pid (scaleImage (sfOf rs) seg2) := by
  rcases h1 : ext.loadData (inputPath env) with e | d
  · simp [runScript, h1] at h
  rcases h2 : ext.createProjGeom "parallel" 1 (NdetxOf d) (anglesCoeffOf d)
      with e | pg
  · simp [runScript, h1, h2] at h
  rcases h3 : ext.createVolGeom (NdetxOf d) (NdetxOf d) with e | vg
  · simp [runScript, h1, h2, h3] at h
  rcases h4 : ext.createProjector "cuda" pg vg with e | pid
  · simp [runScript, h1, h2, h3, h4] at h
  rcases h5 : ext.sirtRecon (correctOffset d) sirtIterations pg vg "cuda"
      with e | rs
  · simp [runScript, h1, h2, h3, h4, h5] at h
  rcases h6 : ext.joint pid (pOf d rs) (recsirtNOf rs) (param0Of ext) lamb
      with e | sp
  · simp [runScript, h1, h2, h3, h4, h5, h6] at h
  rcases sp with ⟨seg1, pe⟩
  rcases h7 : ext.reconTV pid (pOf d rs) (recsirtNOf rs) pe lamb Niter
      with e | sr
  · simp [runScript, h1, h2, h3, h4, h5, h6, h7] at h
  rcases sr with ⟨seg2, recC⟩
  rcases h8 : ext.showPlots with e | u
  · simp [runScript, h1, h2, h3, h4, h5, h6, h7, h8] at h
  rcases h9 : ext.saveFile outputPath (scaleImage (sfOf rs) seg2) with e | v
  · simp [runScript, h1, h2, h3, h4, h5, h6, h7, h8, h9] at h
  cases u
  cases v
  simp only [runScript, h1, h2, h3, h4, h5, h6, h7, h8, h9] at h
  refine ⟨d, pg, vg, pid, rs, seg1, pe, seg2, recC, by simp [h1], by simp [h2],
    by simp [h3], by simp [h4], by simp [h5], by simp [h6], by simp [h7],
    by simp [h8], by simp [h9], by simpa using h.symm, ?_⟩
  simp only [runScript, h1, h2, h3, h4, h5, h6, h7, h8, h9]

/-! ### Arithmetic facts about `linspace`, the angle array, and images -/

theorem linspace_length (a b : ℚ) (n : ℕ) : (linspace a b n).length = n := by
  by_cases h0 : n = 0
  · simp [linspace, h0]
  by_cases h1 : n = 1
  · simp [linspace, h0, h1]
  · simp [linspace, h0, h1]

theorem linspace_getD (a b : ℚ) {n i : ℕ} (h2 : 2 ≤ n) (hi : i < n) :
    (linspace a b n).getD i 0 = a + (b - a) * (i : ℚ) / ((n : ℚ) - 1) := by
  have h0 : ¬n = 0 := by omega
  have h1 : ¬n = 1 := by omega
  have hlen : i < (linspace a b n).length := by rw [linspace_length]; exact hi
  rw [List.getD_eq_getElem _ _ hlen]
  simp [linspace, h0, h1]

theorem anglesReal_length (n : ℕ) : (anglesReal n).length = n := by
  unfold anglesReal
  rw [List.length_map, linspace_length]

theorem anglesReal_getD {n i : ℕ} (hi : i < n) :
    (anglesReal n).getD i 0 =
      (((linspace (-50) 50 n).getD i 0 : ℚ) : ℝ) * (Real.pi / 180) := by
  have hlen : i < (linspace (-50) 50 n).length := by rw [linspace_length]; exact hi
  have hlen2 : i < (anglesReal n).length := by rw [anglesReal_length]; exact hi
  rw [List.getD_eq_getElem _ _ hlen2, List.getD_eq_getElem _ _ hlen]
  simp [anglesReal]

theorem anglesReal_formula {n i : ℕ} (h2 : 2 ≤ n) (hi : i < n) :
    (anglesReal n).getD i 0 =
      ((-50 : ℝ) + 100 * (i : ℝ) / ((n : ℝ) - 1)) * (Real.pi / 180) := by
  rw [anglesReal_getD hi, linspace_getD _ _ h2 hi]
  push_cast
  norm_num

theorem anglesReal_first {n : ℕ} (h2 : 2 ≤ n) :
    (anglesReal n).getD 0 0 = (-50 : ℝ) * (Real.pi / 180) := by
  rw [anglesReal_formula h2 (by omega)]
  norm_num

theorem anglesReal_last {n : ℕ} (h2 : 2 ≤ n) :
    (anglesReal n).getD (n - 1) 0 = (50 : ℝ) * (Real.pi / 180) := by
  rw [anglesReal_formula h2 (by omega)]
  have hgt : (1 : ℝ) < (n : ℝ) := by exact_mod_cast (by omega : 1 < n)
  have hne : ((n : ℝ) - 1) ≠ 0 := sub_ne_zero.mpr (ne_of_gt hgt)
  have hcast : ((n - 1 : ℕ) : ℝ) = (n : ℝ) - 1 := by
    have h1 : 1 ≤ n := by omega
    push_cast [Nat.cast_sub h1]
    ring
  rw [hcast, mul_div_assoc, div_self hne]
  norm_num

theorem anglesReal_chain {n : ℕ} (h2 : 2 ≤ n) :
    List.Chain' (· < ·) (anglesReal n) := by
  rw [List.chain'_iff_get]
  intro i hlt
  rw [anglesReal_length] at hlt
  have hi : i < n := by omega
  have hi' : i + 1 < n := by omega
  have g1 : (anglesReal n).get ⟨i, by rw [anglesReal_length]; omega⟩ =
      (anglesReal n).getD i 0 := by
    rw [List.getD_eq_getElem _ _ (by rw [anglesReal_length]; omega)]
    simp
  have g2 : (anglesReal n).get ⟨i + 1, by rw [anglesReal_length]; omega⟩ =
      (anglesReal n).getD (i + 1) 0 := by
    rw [List.getD_eq_getElem _ _ (by rw [anglesReal_length]; omega)]
    simp
  rw [g1, g2, anglesReal_formula h2 hi, anglesReal_formula h2 hi']
  have hd : (0 : ℝ) < (n : ℝ) - 1 := by
    have : (2 : ℝ) ≤ (n : ℝ) := by exact_mod_cast h2
    linarith
  have hpi : (0 : ℝ) < Real.pi / 180 := div_pos Real.pi_pos (by norm_num)
  apply mul_lt_mul_of_pos_right _ hpi
  push_cast
  have : (i : ℝ) < (i : ℝ) + 1 := by linarith
  gcongr

theorem anglesReal_spacing {n : ℕ} (h2 : 2 ≤ n) {i : ℕ} (hi : i + 1 < n) :
    (anglesReal n).getD (i + 1) 0 - (anglesReal n).getD i 0 =
      (100 / ((n : ℝ) - 1)) * (Real.pi / 180) := by
  rw [anglesReal_formula h2 hi, anglesReal_formula h2 (by omega)]
  push_cast
  ring

theorem maxList_all_zero {l : List ℚ} (h : ∀ x ∈ l, x = 0) : maxList l = 0 := by
  cases l with
  | nil => rfl
  | cons x xs =>
    have hx : x = 0 := h x (by simp)
    have haux : ∀ (ys : List ℚ) (a : ℚ), (∀ y ∈ ys, y = 0) → a = 0 →
        List.foldl max a ys = 0 := by
      intro ys
      induction ys with
      | nil => intro a _ ha; simpa using ha
      | cons y ys ih =>
        intro a hys ha
        have hy : y = 0 := hys y (by simp)
        simp only [List.foldl_cons]
        exact ih _ (fun z hz => hys z (by simp [hz])) (by simp [ha, hy])
    exact haux xs x (fun y hy => h y (by simp [hy])) hx

theorem foldl_max_div (c : ℚ) (hc : 0 ≤ c) (l : List ℚ) :
    ∀ a : ℚ, List.foldl max (a / c) (l.map (fun x => x / c)) =
      List.foldl max a l / c := by
  induction l with
  | nil => intro a; simp
  | cons x xs ih =>
    intro a
    simp only [List.map_cons, List.foldl_cons]
    rw [max_div_div_right hc, ih]

theorem maxList_map_div (c : ℚ) (hc : 0 ≤ c) (l : List ℚ) :
    maxList (l.map (fun x => x / c)) = maxList l / c := by
  cases l with
  | nil => simp [maxList]
  | cons x xs =>
    simp only [List.map_cons, maxList]
    exact foldl_max_div c hc xs x

theorem flatten_divImage (d : Image) (c : ℚ) :
    (divImage d c).flatten = d.flatten.map (fun x => x / c) := by
  unfold divImage
  rw [List.map_flatten]

theorem maxImage_div (d : Image) (c : ℚ) (hc : 0 ≤ c) :
    maxImage (divImage d c) = maxImage d / c := by
  unfold maxImage
  rw [flatten_divImage, maxList_map_div c hc]

theorem maxImage_all_zero {d : Image} (h : ∀ x ∈ d.flatten, x = 0) :
    maxImage d = 0 := maxList_all_zero h

theorem scale_div_cancel (d : Image) (c : ℚ) (hc : c ≠ 0) :
    scaleImage c (divImage d c) = d := by
  unfold scaleImage divImage
  rw [List.map_map]
  have h1 : ∀ row : List ℚ,
      ((fun row => List.map (fun x => x * c) row) ∘
        fun row => List.map (fun x => x / c) row) row = row := by
    intro row
    simp only [Function.comp, List.map_map]
    have h2 : ((fun x => x * c) ∘ fun x : ℚ => x / c) = fun x : ℚ => x := by
      funext x
      simp [Function.comp, div_mul_cancel₀ x hc]
    rw [h2]
    simp
  calc d.map ((fun row => List.map (fun x => x * c) row) ∘
        fun row => List.map (fun x => x / c) row)
      = d.map (fun row => row) := List.map_congr_left (fun row _ => h1 row)
    _ = d := by simp

theorem hasShape_scaleImage {d : Image} {r k : ℕ} (c : ℚ)
    (h : hasShape d r k) : hasShape (scaleImage c d) r k := by
  obtain ⟨hr, hrow⟩ := h
  refine ⟨by simpa [scaleImage] using hr, ?_⟩
  intro row hmem
  simp only [scaleImage, List.mem_map] at hmem
  obtain ⟨row0, hmem0, heq⟩ := hmem
  rw [← heq, List.length_map]
  exact hrow row0 hmem0

/-! ### The claims -/

/-- C1: the configured volume geometry is a square of side `Ndetx` (the second
dimension of the loaded sinogram), so the segmented reconstruction the script
saves has dimensions `Ndetx × Ndetx`, under the hypothesis that the external
final reconstruction returns an array of the configured volume shape. -/
theorem claim1_volume_geometry (ext : Externals) (argv : List String) (env : Env)
    (st : RunState) (h : (runScript ext argv env).2 = Except.ok st)
    (hshape : hasShape st.SegrecRaw st.Ndetx st.Ndetx) :
    st.volGeomArgs = (st.Ndetx, st.Ndetx) ∧
    savedImages (runScript ext argv env).1 = [(outputPath, st.Segrec)] ∧
    hasShape st.Segrec st.Ndetx st.Ndetx := by
  obtain ⟨d, pg, vg, pid, rs, seg1, pe, seg2, recC, h1, h2, h3, h4, h5, h6, h7,
    h8, h9, hst, htr⟩ := runScript_ok_elim ext argv env st h
  subst hst
  refine ⟨rfl, ?_, ?_⟩
  · rw [htr]; rfl
  · exact hasShape_scaleImage _ hshape

/-- C2: the intensity-offset correction replaces every element of the loaded
sinogram by that element minus the fixed offset `-0.00893` (equivalently, plus
`0.00893`), and the corrected array is exactly what the initial reconstruction
receives. -/
theorem claim2_offset_correction (ext : Externals) (argv : List String)
    (env : Env) (st : RunState) (h : (runScript ext argv env).2 = Except.ok st) :
    offset = -(893 / 100000 : ℚ) ∧
    st.dataCorrected =
      st.dataLoaded.map (fun row => row.map (fun x => x - offset)) ∧
    st.dataCorrected =
      st.dataLoaded.map (fun row => row.map (fun x => x + 893 / 100000)) ∧
    ext.sirtRecon st.dataCorrected sirtIterations st.proj_geom st.vol_geom
      "cuda" = .ok st.recsirtRaw := by
  obtain ⟨d, pg, vg, pid, rs, seg1, pe, seg2, recC, h1, h2, h3, h4, h5, h6, h7,
    h8, h9, hst, htr⟩ := runScript_ok_elim ext argv env st h
  subst hst
  refine ⟨rfl, rfl, ?_, h5⟩
  show correctOffset d = _
  unfold correctOffset
  refine List.map_congr_left fun row _ => List.map_congr_left fun x _ => ?_
  unfold offset
  ring

/-- C4: the only persistent output of a completed run is the single file
`TVRDART2Dreconstruction.npy`, and the array written there is the segmented
result of the final TVR-DART reconstruction rescaled by `sf`; no other array
is ever written. -/
theorem claim4_single_output (ext : Externals) (argv : List String) (env : Env)
    (st : RunState) (h : (runScript ext argv env).2 = Except.ok st) :
    savedImages (runScript ext argv env).1 =
      [(outputPath, scaleImage st.sf st.SegrecRaw)] ∧
    st.Segrec = scaleImage st.sf st.SegrecRaw ∧
    ∃ recC2, ext.reconTV st.proj_id st.p st.recsirt st.param_esti lamb Niter =
      .ok (st.SegrecRaw, recC2) := by
  obtain ⟨d, pg, vg, pid, rs, seg1, pe, seg2, recC, h1, h2, h3, h4, h5, h6, h7,
    h8, h9, hst, htr⟩ := runScript_ok_elim ext argv env st h
  subst hst
  exact ⟨by rw [htr]; rfl, rfl, recC, h7⟩

/-- C6: on a completed run the stages execute exactly once each, in the fixed
order load, offset correction, geometry, SIRT, parameter estimation, final
reconstruction, rescale, visualize, save. -/
theorem claim6_stage_order (ext : Externals) (argv : List String) (env : Env)
    (st : RunState) (h : (runScript ext argv env).2 = Except.ok st) :
    (runScript ext argv env).1 = fullTrace st.proj_id st.Segrec ∧
    stageEvents (runScript ext argv env).1 =
      [Stage.load, Stage.offsetCorr, Stage.geometry, Stage.sirt, Stage.paramEst,
       Stage.finalRecon, Stage.rescale, Stage.visualize, Stage.save] := by
  obtain ⟨d, pg, vg, pid, rs, seg1, pe, seg2, recC, h1, h2, h3, h4, h5, h6, h7,
    h8, h9, hst, htr⟩ := runScript_ok_elim ext argv env st h
  subst hst
  exact ⟨by rw [htr]; rfl, by rw [htr]; rfl⟩

/-- C9: the normalization divides the corrected sinogram and the SIRT
reconstruction by `sf = max(recsirt)` with no guard, and when the SIRT
reconstruction is identically zero the divisor `sf` is zero. -/
theorem claim9_unguarded_normalization (ext : Externals) (argv : List String)
    (env : Env) (st : RunState) (h : (runScript ext argv env).2 = Except.ok st) :
    st.sf = maxImage st.recsirtRaw ∧
    st.dataNormalized = divImage st.dataCorrected st.sf ∧
    st.recsirt = divImage st.recsirtRaw st.sf ∧
    ((∀ x ∈ st.recsirtRaw.flatten, x = 0) → st.sf = 0) := by
  obtain ⟨d, pg, vg, pid, rs, seg1, pe, seg2, recC, h1, h2, h3, h4, h5, h6, h7,
    h8, h9, hst, htr⟩ := runScript_ok_elim ext argv env st h
  subst hst
  exact ⟨rfl, rfl, rfl, fun hz => maxImage_all_zero hz⟩

/-- C10 (amended): rescaling by `sf` undoes the normalization exactly:
`(d / c) * c = d` for every array when `c ≠ 0`, so the rescaled SIRT
reconstruction equals the raw SIRT output whenever `sf ≠ 0`; and after
normalization `max(recsirt) = 1` provided `sf > 0`. -/
theorem claim10_amended_roundtrip (ext : Externals) (argv : List String)
    (env : Env) (st : RunState) (h : (runScript ext argv env).2 = Except.ok st) :
    (∀ (dd : Image) (c : ℚ), c ≠ 0 → scaleImage c (divImage dd c) = dd) ∧
    (st.sf ≠ 0 → st.recsirtFinal = st.recsirtRaw) ∧
    (0 < st.sf → maxImage st.recsirt = 1) := by
  obtain ⟨d, pg, vg, pid, rs, seg1, pe, seg2, recC, h1, h2, h3, h4, h5, h6, h7,
    h8, h9, hst, htr⟩ := runScript_ok_elim ext argv env st h
  subst hst
  refine ⟨fun dd c hc => scale_div_cancel dd c hc, ?_, ?_⟩
  · intro hsf
    exact scale_div_cancel rs (sfOf rs) hsf
  · intro hpos
    show maxImage (divImage rs (sfOf rs)) = 1
    rw [maxImage_div rs (sfOf rs) (le_of_lt hpos)]
    exact div_self (ne_of_gt hpos)

/-- C3 (amended): the projection-angle array is a 1D array in radians whose
length is the number of rows `Nan` of the loaded sinogram; provided `Nan ≥ 2`
it runs from `-50·π/180` to `+50·π/180` inclusive, strictly increasing and
evenly spaced. -/
theorem claim3_amended_angles (ext : Externals) (argv : List String) (env : Env)
    (st : RunState) (h : (runScript ext argv env).2 = Except.ok st)
    (h2 : 2 ≤ st.Nan) :
    st.Nan = st.dataLoaded.length ∧
    st.anglesCoeff = linspace (-50) 50 st.Nan ∧
    (anglesReal st.Nan).length = st.Nan ∧
    (anglesReal st.Nan).getD 0 0 = (-50 : ℝ) * (Real.pi / 180) ∧
    (anglesReal st.Nan).getD (st.Nan - 1) 0 = (50 : ℝ) * (Real.pi / 180) ∧
    List.Chain' (· < ·) (anglesReal st.Nan) ∧
    (∀ i, i + 1 < st.Nan →
      (anglesReal st.Nan).getD (i + 1) 0 - (anglesReal st.Nan).getD i 0 =
        (100 / ((st.Nan : ℝ) - 1)) * (Real.pi / 180)) := by
  obtain ⟨d, pg, vg, pid, rs, seg1, pe, seg2, recC, h1, h2', h3, h4, h5, h6, h7,
    h8, h9, hst, htr⟩ := runScript_ok_elim ext argv env st h
  subst hst
  exact ⟨rfl, rfl, anglesReal_length _, anglesReal_first h2, anglesReal_last h2,
    anglesReal_chain h2, fun i hi => anglesReal_spacing h2 hi⟩

/-- C5: the script installs no handler, so the first error of any stage is the
run's result, and no later stage runs: each conjunct states, for one of the
nine fallible stages, that an error there yields exactly the trace of the
completed earlier stages together with that error. -/
theorem claim5_error_propagation (ext : Externals) (argv : List String)
    (env : Env) (e : String) :
    (ext.loadData (inputPath env) = .error e →
      runScript ext argv env = ([], .error e)) ∧
    (∀ d, ext.loadData (inputPath env) = .ok d →
      ext.createProjGeom "parallel" 1 (NdetxOf d) (anglesCoeffOf d) = .error e →
      runScript ext argv env = ([.load, .offsetCorr], .error e)) ∧
    (∀ d pg, ext.loadData (inputPath env) = .ok d →
      ext.createProjGeom "parallel" 1 (NdetxOf d) (anglesCoeffOf d) = .ok pg →
      ext.createVolGeom (NdetxOf d) (NdetxOf d) = .error e →
      runScript ext argv env = ([.load, .offsetCorr], .error e)) ∧
    (∀ d pg vg, ext.loadData (inputPath env) = .ok d →
      ext.createProjGeom "parallel" 1 (NdetxOf d) (anglesCoeffOf d) = .ok pg →
      ext.createVolGeom (NdetxOf d) (NdetxOf d) = .ok vg →
      ext.createProjector "cuda" pg vg = .error e →
      runScript ext argv env = ([.load, .offsetCorr, .geometry], .error e)) ∧
    (∀ d pg vg pid, ext.loadData (inputPath env) = .ok d →
      ext.createProjGeom "parallel" 1 (NdetxOf d) (anglesCoeffOf d) = .ok pg →
      ext.createVolGeom (NdetxOf d) (NdetxOf d) = .ok vg →
      ext.createProjector "cuda" pg vg = .ok pid →
      ext.sirtRecon (correctOffset d) sirtIterations pg vg "cuda" = .error e →
      runScript ext argv env =
        ([.load, .offsetCorr, .geometry, .projectorCreate pid], .error e)) ∧
    (∀ d pg vg pid rs, ext.loadData (inputPath env) = .ok d →
      ext.createProjGeom "parallel" 1 (NdetxOf d) (anglesCoeffOf d) = .ok pg →
      ext.createVolGeom (NdetxOf d) (NdetxOf d) = .ok vg →
      ext.createProjector "cuda" pg vg = .ok pid →
      ext.sirtRecon (correctOffset d) sirtIterations pg vg "cuda" = .ok rs →
      ext.joint pid (pOf d rs) (recsirtNOf rs) (param0Of ext) lamb = .error e →
      runScript ext argv env =
        ([.load, .offsetCorr, .geometry, .projectorCreate pid, .sirt],
         .error e)) ∧
    (∀ d pg vg pid rs seg1 pe, ext.loadData (inputPath env) = .ok d →
      ext.createProjGeom "parallel" 1 (NdetxOf d) (anglesCoeffOf d) = .ok pg →
      ext.createVolGeom (NdetxOf d) (NdetxOf d) = .ok vg →
      ext.createProjector "cuda" pg vg = .ok pid →
      ext.sirtRecon (correctOffset d) sirtIterations pg vg "cuda" = .ok rs →
      ext.joint pid (pOf d rs) (recsirtNOf rs) (param0Of ext) lamb =
        .ok (seg1, pe) →
      ext.reconTV pid (pOf d rs) (recsirtNOf rs) pe lamb Niter = .error e →
      runScript ext argv env =
        ([.load, .offsetCorr, .geometry, .projectorCreate pid, .sirt,
          .paramEst], .error e)) ∧
    (∀ d pg vg pid rs seg1 pe seg2 recC, ext.loadData (inputPath env) = .ok d →
      ext.createProjGeom "parallel" 1 (NdetxOf d) (anglesCoeffOf d) = .ok pg →
      ext.createVolGeom (NdetxOf d) (NdetxOf d) = .ok vg →
      ext.createProjector "cuda" pg vg = .ok pid →
      ext.sirtRecon (correctOffset d) sirtIterations pg vg "cuda" = .ok rs →
      ext.joint pid (pOf d rs) (recsirtNOf rs) (param0Of ext) lamb =
        .ok (seg1, pe) →
      ext.reconTV pid (pOf d rs) (recsirtNOf rs) pe lamb Niter =
        .ok (seg2, recC) →
      ext.showPlots = .error e →
      runScript ext argv env =
        ([.load, .offsetCorr, .geometry, .projectorCreate pid, .sirt,
          .paramEst, .finalRecon, .rescale], .error e)) ∧
    (∀ d pg vg pid rs seg1 pe seg2 recC, ext.loadData (inputPath env) = .ok d →
      ext.createProjGeom "parallel" 1 (NdetxOf d) (anglesCoeffOf d) = .ok pg →
      ext.createVolGeom (NdetxOf d) (NdetxOf d) = .ok vg →
      ext.createProjector "cuda" pg vg = .ok pid →
      ext.sirtRecon (correctOffset d) sirtIterations pg vg "cuda" = .ok rs →
      ext.joint pid (pOf d rs) (recsirtNOf rs) (param0Of ext) lamb =
        .ok (seg1, pe) →
      ext.reconTV pid (pOf d rs) (recsirtNOf rs) pe lamb Niter =
        .ok (seg2, recC) →
      ext.showPlots = .ok () →
      ext.saveFile outputPath (scaleImage (sfOf rs) seg2) = .error e →
      runScript ext argv env =
        ([.load, .offsetCorr, .geometry, .projectorCreate pid, .sirt,
          .paramEst, .finalRecon, .rescale, .visualize], .error e)) := by
  refine ⟨?_, ?_, ?_, ?_, ?_, ?_, ?_, ?_, ?_⟩
  · intro h1
    simp [runScript, h1]
  · intro d h1 h2
    simp [runScript, h1, h2]
  · intro d pg h1 h2 h3
    simp [runScript, h1, h2, h3]
  · intro d pg vg h1 h2 h3 h4
    simp [runScript, h1, h2, h3, h4]
  · intro d pg vg pid h1 h2 h3 h4 h5
    simp [runScript, h1, h2, h3, h4, h5]
  · intro d pg vg pid rs h1 h2 h3 h4 h5 h6
    simp [runScript, h1, h2, h3, h4, h5, h6]
  · intro d pg vg pid rs seg1 pe h1 h2 h3 h4 h5 h6 h7
    simp [runScript, h1, h2, h3, h4, h5, h6, h7]
  · intro d pg vg pid rs seg1 pe seg2 recC h1 h2 h3 h4 h5 h6 h7 h8
    simp [runScript, h1, h2, h3, h4, h5, h6, h7, h8]
  · intro d pg vg pid rs seg1 pe seg2 recC h1 h2 h3 h4 h5 h6 h7 h8 h9
    simp [runScript, h1, h2, h3, h4, h5, h6, h7, h8, h9]

/-- C7 (amended): the input path is hard-coded relative to the home directory,
and the run depends on nothing else in the arguments or environment: two runs
with the same resolved home directory consult the same file and compute the
same values, whatever their command-line arguments and other variables. -/
theorem claim7_amended_fixed_input (ext : Externals) (argv1 argv2 : List String)
    (env1 env2 : Env) (hhome : env1.home = env2.home) :
    inputPath env1 =
      env1.home ++ "/Documents/GitHub/ContributedTools/nanotube2d.npy" ∧
    runScript ext argv1 env1 = runScript ext argv2 env2 := by
  refine ⟨rfl, ?_⟩
  unfold runScript
  rw [show inputPath env1 = inputPath env2 from by unfold inputPath; rw [hhome]]

/-- Every possible trace of a run: one prefix per failure point, or the full
trace. -/
theorem runScript_trace_cases (ext : Externals) (argv : List String)
    (env : Env) :
    (runScript ext argv env).1 = [] ∨
    (runScript ext argv env).1 = [.load, .offsetCorr] ∨
    (runScript ext argv env).1 = [.load, .offsetCorr, .geometry] ∨
    (∃ pid, (runScript ext argv env).1 =
      [.load, .offsetCorr, .geometry, .projectorCreate pid]) ∨
    (∃ pid, (runScript ext argv env).1 =
      [.load, .offsetCorr, .geometry, .projectorCreate pid, .sirt]) ∨
    (∃ pid, (runScript ext argv env).1 =
      [.load, .offsetCorr, .geometry, .projectorCreate pid, .sirt,
       .paramEst]) ∨
    (∃ pid, (runScript ext argv env).1 =
      [.load, .offsetCorr, .geometry, .projectorCreate pid, .sirt, .paramEst,
       .finalRecon, .rescale]) ∨
    (∃ pid, (runScript ext argv env).1 =
      [.load, .offsetCorr, .geometry, .projectorCreate pid, .sirt, .paramEst,
       .finalRecon, .rescale, .visualize]) ∨
    (∃ pid seg, (runScript ext argv env).1 = fullTrace pid seg) := by
  rcases h1 : ext.loadData (inputPath env) with e | d
  · exact Or.inl (by simp [runScript, h1])
  rcases h2 : ext.createProjGeom "parallel" 1 (NdetxOf d) (anglesCoeffOf d)
      with e | pg
  · exact Or.inr (Or.inl (by simp [runScript, h1, h2]))
  rcases h3 : ext.createVolGeom (NdetxOf d) (NdetxOf d) with e | vg
  · exact Or.inr (Or.inl (by simp [runScript, h1, h2, h3]))
  rcases h4 : ext.createProjector "cuda" pg vg with e | pid
  · exact Or.inr (Or.inr (Or.inl (by simp [runScript, h1, h2, h3, h4])))
  rcases h5 : ext.sirtRecon (correctOffset d) sirtIterations pg vg "cuda"
      with e | rs
  · exact Or.inr (Or.inr (Or.inr (Or.inl
      ⟨pid, by simp [runScript, h1, h2, h3, h4, h5]⟩)))
  rcases h6 : ext.joint pid (pOf d rs) (recsirtNOf rs) (param0Of ext) lamb
      with e | sp
  · exact Or.inr (Or.inr (Or.inr (Or.inr (Or.inl
      ⟨pid, by simp [runScript, h1, h2, h3, h4, h5, h6]⟩))))
  rcases sp with ⟨seg1, pe⟩
  rcases h7 : ext.reconTV pid (pOf d rs) (recsirtNOf rs) pe lamb Niter
      with e | sr
  · exact Or.inr (Or.inr (Or.inr (Or.inr (Or.inr (Or.inl
      ⟨pid, by simp [runScript, h1, h2, h3, h4, h5, h6, h7]⟩)))))
  rcases sr with ⟨seg2, recC⟩
  rcases h8 : ext.showPlots with e | u
  · exact Or.inr (Or.inr (Or.inr (Or.inr (Or.inr (Or.inr (Or.inl
      ⟨pid, by simp [runScript, h1, h2, h3, h4, h5, h6, h7, h8]⟩))))))
  rcases h9 : ext.saveFile outputPath (scaleImage (sfOf rs) seg2) with e | v
  · exact Or.inr (Or.inr (Or.inr (Or.inr (Or.inr (Or.inr (Or.inr (Or.inl
      ⟨pid, by simp [runScript, h1, h2, h3, h4, h5, h6, h7, h8, h9]⟩)))))))
  · exact Or.inr (Or.inr (Or.inr (Or.inr (Or.inr (Or.inr (Or.inr (Or.inr
      ⟨pid, scaleImage (sfOf rs) seg2,
        by simp [runScript, h1, h2, h3, h4, h5, h6, h7, h8, h9]⟩)))))))

/-- C8: no trace contains a projector release, every trace contains at most
one projector creation, and a completed run contains exactly one. -/
theorem claim8_projector_lifecycle (ext : Externals) (argv : List String)
    (env : Env) :
    countReleases (runScript ext argv env).1 = 0 ∧
    countCreates (runScript ext argv env).1 ≤ 1 ∧
    (∀ st, (runScript ext argv env).2 = Except.ok st →
      countCreates (runScript ext argv env).1 = 1) := by
  refine ⟨?_, ?_, ?_⟩
  · rcases runScript_trace_cases ext argv env with h | h | h | ⟨pid, h⟩ |
      ⟨pid, h⟩ | ⟨pid, h⟩ | ⟨pid, h⟩ | ⟨pid, h⟩ | ⟨pid, seg, h⟩ <;>
      rw [h] <;> rfl
  · rcases runScript_trace_cases ext argv env with h | h | h | ⟨pid, h⟩ |
      ⟨pid, h⟩ | ⟨pid, h⟩ | ⟨pid, h⟩ | ⟨pid, h⟩ | ⟨pid, seg, h⟩ <;>
      rw [h] <;> simp [countCreates, fullTrace, isProjectorCreate,
        List.countP_cons, List.countP_nil]
  · intro st h
    obtain ⟨d, pg, vg, pid, rs, seg1, pe, seg2, recC, h1, h2, h3, h4, h5, h6,
      h7, h8, h9, hst, htr⟩ := runScript_ok_elim ext argv env st h
    rw [htr]
    rfl

/-! ### Counterexamples -/

/-- Externals whose loaded sinogram has a single row (`Nan = 1`). -/
def c3Ext : Externals := { happyExt with loadData := fun _ => .ok [[1, 2]] }

/-- The final state of the `Nan = 1` run. -/
def c3St : RunState :=
  mkRunState c3Ext [[1, 2]]
    { geomType := "parallel", detWidth := 1, detCount := NdetxOf [[1, 2]],
      anglesCoeff := anglesCoeffOf [[1, 2]] }
    { nz := NdetxOf [[1, 2]], nx := NdetxOf [[1, 2]] }
    7 sampleSirt sampleSeg1 (param0Of c3Ext) sampleSeg2 sampleRecC

/-- C3 fails as stated: for a loaded sinogram with a single row the angle
array is the single value `-50·π/180`, so it does not reach `+50·π/180`
inclusive. -/
theorem claim3_counterexample :
    (runScript c3Ext [] env0).2 = Except.ok c3St ∧
    c3St.Nan = c3St.dataLoaded.length ∧
    c3St.Nan = 1 ∧
    anglesReal c3St.Nan = [(-50 : ℝ) * (Real.pi / 180)] ∧
    ((50 : ℝ) * (Real.pi / 180)) ∉ anglesReal c3St.Nan := by
  have h4 : anglesReal c3St.Nan = [(-50 : ℝ) * (Real.pi / 180)] := by
    show anglesReal 1 = _
    simp [anglesReal, linspace]
  refine ⟨rfl, rfl, rfl, h4, ?_⟩
  rw [h4]
  simp only [List.mem_singleton]
  intro heq
  have hpi := Real.pi_pos
  linarith

/-- An environment whose home directory is `/home/alice`. -/
def envA : Env := { home := "/home/alice", vars := [] }

/-- An environment identical to `envA` except for the home directory. -/
def envB : Env := { home := "/home/bob", vars := [] }

/-- Externals with a file system that only has the input file under
`envA`'s home directory. -/
def c7Ext : Externals :=
  { happyExt with
    loadData := fun p =>
      if p = inputPath envA then .ok sampleData
      else .error "FileNotFoundError" }

/-- C7 fails as stated: two runs that differ only in environment variables
(the resolved home directory) consult different files and behave
differently. -/
theorem claim7_counterexample :
    envA.vars = envB.vars ∧
    inputPath envA ≠ inputPath envB ∧
    (runScript c7Ext [] envA).1 ≠ (runScript c7Ext [] envB).1 := by
  exact ⟨rfl, by decide, by decide⟩

/-- Externals whose SIRT reconstruction is everywhere negative, with
maximum `-1`. -/
def c10Ext : Externals :=
  { happyExt with sirtRecon := fun _ _ _ _ _ => .ok [[-2, -1]] }

/-- The final state of the negative-SIRT run. -/
def c10St : RunState :=
  mkRunState c10Ext sampleData
    { geomType := "parallel", detWidth := 1, detCount := NdetxOf sampleData,
      anglesCoeff := anglesCoeffOf sampleData }
    { nz := NdetxOf sampleData, nx := NdetxOf sampleData }
    7 [[-2, -1]] sampleSeg1 (param0Of c10Ext) sampleSeg2 sampleRecC

/-- C10 fails as stated: in a run whose SIRT output is `[[-2, -1]]` the
normalization factor is `sf = -1 ≠ 0`, yet the maximum of the normalized
reconstruction is `2`, not `1`. -/
theorem claim10_counterexample :
    (runScript c10Ext [] env0).2 = Except.ok c10St ∧
    c10St.sf ≠ 0 ∧
    maxImage c10St.recsirt ≠ 1 := by
  refine ⟨rfl, ?_, ?_⟩
  · rw [show c10St.sf = (-1 : ℚ) from rfl]
    norm_num
  · have h3 : c10St.recsirt = [[(2 : ℚ), 1]] := by
      show recsirtNOf [[-2, -1]] = _
      rw [recsirtNOf, show sfOf [[-2, -1]] = (-1 : ℚ) from rfl]
      unfold divImage
      norm_num [List.map_cons, List.map_nil]
    rw [h3, show maxImage [[(2 : ℚ), 1]] = max 2 1 from rfl,
      max_eq_left (by norm_num : (1 : ℚ) ≤ 2)]
    norm_num

/-! ### Witnesses -/

/-- Witness for C1 at the concrete successful sample run. -/
theorem claim1_witness :
    hasShape happySt.Segrec happySt.Ndetx happySt.Ndetx ∧
    happySt.volGeomArgs = (happySt.Ndetx, happySt.Ndetx) ∧
    savedImages (runScript happyExt [] env0).1 = [(outputPath, happySt.Segrec)] := by
  have h := claim1_volume_geometry happyExt [] env0 happySt rfl (by decide)
  exact ⟨h.2.2, h.1, h.2.1⟩

/-- Witness for C2 at the concrete successful sample run. -/
theorem claim2_witness :
    happySt.dataCorrected =
      happySt.dataLoaded.map (fun row => row.map (fun x => x + 893 / 100000)) ∧
    happyExt.sirtRecon happySt.dataCorrected sirtIterations happySt.proj_geom
      happySt.vol_geom "cuda" = .ok happySt.recsirtRaw := by
  have h := claim2_offset_correction happyExt [] env0 happySt rfl
  exact ⟨h.2.2.1, h.2.2.2⟩

/-- Witness for C3 (amended) at the concrete successful sample run, which
has `Nan = 3`. -/
theorem claim3_witness :
    (anglesReal happySt.Nan).length = happySt.Nan ∧
    (anglesReal happySt.Nan).getD 0 0 = (-50 : ℝ) * (Real.pi / 180) ∧
    (anglesReal happySt.Nan).getD (happySt.Nan - 1) 0 =
      (50 : ℝ) * (Real.pi / 180) ∧
    List.Chain' (· < ·) (anglesReal happySt.Nan) := by
  have h := claim3_amended_angles happyExt [] env0 happySt rfl (by decide)
  exact ⟨h.2.2.1, h.2.2.2.1, h.2.2.2.2.1, h.2.2.2.2.2.1⟩

/-- Witness for C4 at the concrete successful sample run. -/
theorem claim4_witness :
    savedImages (runScript happyExt [] env0).1 =
      [(outputPath, scaleImage happySt.sf happySt.SegrecRaw)] ∧
    happySt.Segrec = scaleImage happySt.sf happySt.SegrecRaw := by
  have h := claim4_single_output happyExt [] env0 happySt rfl
  exact ⟨h.1, h.2.1⟩

/-- Externals whose file load fails. -/
def failLoadExt : Externals :=
  { happyExt with loadData := fun _ => .error "FileNotFoundError" }

/-- Witness for C5: a failing load terminates the run with that error and an
empty stage trace. -/
theorem claim5_witness :
    runScript failLoadExt [] env0 = ([], .error "FileNotFoundError") :=
  (claim5_error_propagation failLoadExt [] env0 "FileNotFoundError").1 rfl

/-- Witness for C6 at the concrete successful sample run. -/
theorem claim6_witness :
    (runScript happyExt [] env0).1 = fullTrace happySt.proj_id happySt.Segrec ∧
    stageEvents (runScript happyExt [] env0).1 =
      [Stage.load, Stage.offsetCorr, Stage.geometry, Stage.sirt, Stage.paramEst,
       Stage.finalRecon, Stage.rescale, Stage.visualize, Stage.save] :=
  claim6_stage_order happyExt [] env0 happySt rfl

/-- An environment with the same home directory as `env0` but different
variables. -/
def envC : Env := { home := "/home/user", vars := [("DISPLAY", ":0")] }

/-- Witness for C7 (amended): two runs differing in arguments and in
variables that leave the home directory unchanged coincide. -/
theorem claim7_witness :
    inputPath envC =
      envC.home ++ "/Documents/GitHub/ContributedTools/nanotube2d.npy" ∧
    runScript happyExt ["--fast"] envC = runScript happyExt [] env0 :=
  claim7_amended_fixed_input happyExt ["--fast"] [] envC env0 rfl

/-- Witness for C8 at the concrete successful sample run. -/
theorem claim8_witness :
    countCreates (runScript happyExt [] env0).1 = 1 :=
  (claim8_projector_lifecycle happyExt [] env0).2.2 happySt rfl

/-- Externals whose SIRT reconstruction is identically zero. -/
def c9Ext : Externals :=
  { happyExt with sirtRecon := fun _ _ _ _ _ => .ok [[0, 0], [0, 0]] }

/-- The final state of the zero-SIRT run. -/
def c9St : RunState :=
  mkRunState c9Ext sampleData
    { geomType := "parallel", detWidth := 1, detCount := NdetxOf sampleData,
      anglesCoeff := anglesCoeffOf sampleData }
    { nz := NdetxOf sampleData, nx := NdetxOf sampleData }
    7 [[0, 0], [0, 0]] sampleSeg1 (param0Of c9Ext) sampleSeg2 sampleRecC

/-- Witness for C9: a run whose SIRT output is identically zero has `sf = 0`,
and the normalization still divides by it. -/
theorem claim9_witness :
    c9St.sf = 0 ∧ c9St.recsirt = divImage c9St.recsirtRaw c9St.sf := by
  have h := claim9_unguarded_normalization c9Ext [] env0 c9St rfl
  exact ⟨h.2.2.2 (by decide), h.2.2.1⟩

/-- Witness for C10 (amended) at the concrete successful sample run, whose
`sf` is `4 > 0`. -/
theorem claim10_witness :
    happySt.recsirtFinal = happySt.recsirtRaw ∧
    maxImage happySt.recsirt = 1 := by
  have h := claim10_amended_roundtrip happyExt [] env0 happySt rfl
  exact ⟨h.2.1 (by decide), h.2.2 (by decide)⟩

end Recon2D
